import Mathlib

/-
Verification of the GolfIMU streaming ingestion / impact detection /
session-scoped persistence pipeline, as a shallow embedding of the Python
sources (backend/models.py, backend/redis_manager.py,
backend/session_manager.py, backend/serial_manager.py, backend/main.py,
global_config.py).

Modelling conventions:
  * Python floats are modelled as exact rationals (ℚ).
  * datetime values are modelled by their ISO-format strings (String);
    datetime.isoformat / datetime.fromisoformat is a bijection, so the
    encode/decode steps on timestamps are the identity in the model.
  * The square root computed at an impact (g_force = sqrt(accel_sq)/9.81,
    accel_magnitude = sqrt(accel_sq)) is irrational in general, so the
    event payload carries the squares (g_force_sq, accel_magnitude_sq);
    sqrt is injective on nonnegatives, so nothing is lost, and theorems
    state the real-valued relation through Real.sqrt.
  * Redis is modelled as an explicit state (scalar keys and list keys);
    JSON-serialised records stored in Redis are modelled by a typed sum
    (RVal) for list entries and by a field list for the session config,
    mirroring exactly which fields each store/get method writes and reads.
-/

/-! ## Data model (backend/models.py) -/

/-- IMUData (models.py): nine raw sensor floats, four quaternion floats and a
capture timestamp. -/
structure IMUData where
  ax : ℚ
  ay : ℚ
  az : ℚ
  gx : ℚ
  gy : ℚ
  gz : ℚ
  mx : ℚ
  my : ℚ
  mz : ℚ
  qw : ℚ
  qx : ℚ
  qy : ℚ
  qz : ℚ
  timestamp : String
deriving DecidableEq

/-- SessionConfig (models.py): identity, physical parameters, optional face
normal calibration, impact threshold (g), creation time. -/
structure SessionConfig where
  session_id : String
  user_id : String
  club_id : String
  club_length : ℚ
  club_mass : ℚ
  face_normal_calibration : Option (List ℚ)
  impact_threshold : ℚ
  session_start_time : String
deriving DecidableEq

/-- SwingData (models.py): one completed swing record. -/
structure SwingData where
  swing_id : String
  session_id : String
  imu_data_points : List IMUData
  swing_start_time : String
  swing_end_time : String
  swing_duration : ℚ
  impact_g_force : ℚ
  swing_type : String
deriving DecidableEq

/-- The structured payload _detect_impact (main.py) attaches to an impact
event: the dict with keys g_force, timestamp (the sample's) and
accel_magnitude. g_force and accel_magnitude are square roots, carried here
by their squares (see the header comment). -/
structure ImpactPayload where
  g_force_sq : ℚ
  sample_timestamp : String
  accel_magnitude_sq : ℚ
deriving DecidableEq

/-- SwingEvent (models.py): a lightweight timestamped tag; the data field is
the impact payload when present. -/
structure SwingEvent where
  swing_id : String
  session_id : String
  event_type : String
  timestamp : String
  data : Option ImpactPayload
deriving DecidableEq

/-! ## Impact detector (GolfIMUBackend._detect_impact, main.py lines 269-294) -/

/-- Standard gravity 9.81 m/s² as the exact rational the source writes. -/
def gAccel : ℚ := 981 / 100

/-- GolfIMUBackend._detect_impact: given the current session (None means no
session: nothing is emitted) and one sample, compute the squared acceleration
magnitude, compare it against the squared scaled threshold, and on impact
emit one "impact" SwingEvent whose payload holds the g-force, the sample's
timestamp and the acceleration magnitude. `eid` stands for the uuid the
SwingEvent default factory generates, `now` for datetime.now(). -/
def detect_impact (session : Option SessionConfig) (d : IMUData)
    (eid now : String) : Option SwingEvent :=
  match session with
  | none => none
  | some cfg =>
    let accel_squared := d.ax ^ 2 + d.ay ^ 2 + d.az ^ 2
    let threshold_squared := (cfg.impact_threshold * gAccel) ^ 2
    if threshold_squared ≤ accel_squared then
      some { swing_id := eid
             session_id := cfg.session_id
             event_type := "impact"
             timestamp := now
             data := some { g_force_sq := accel_squared / gAccel ^ 2
                            sample_timestamp := d.timestamp
                            accel_magnitude_sq := accel_squared } }
    else none

/-- C1: for every sample and every current session with threshold t, the
impact detector emits an event iff ax²+ay²+az² ≥ (t·9.81)², exactly one per
such sample (the result is an Option: at most one event, and it is some
exactly on threshold crossing), carrying event type "impact", the sample's
timestamp, and a g-force whose real value is sqrt(ax²+ay²+az²)/9.81. -/
theorem impact_detector_emits_iff_threshold (cfg : SessionConfig) (d : IMUData)
    (eid now : String) :
    ((detect_impact (some cfg) d eid now).isSome ↔
      (cfg.impact_threshold * gAccel) ^ 2 ≤ d.ax ^ 2 + d.ay ^ 2 + d.az ^ 2)
    ∧ (∀ e, detect_impact (some cfg) d eid now = some e →
        e.event_type = "impact"
        ∧ e.session_id = cfg.session_id
        ∧ ∃ p, e.data = some p
            ∧ p.sample_timestamp = d.timestamp
            ∧ p.accel_magnitude_sq = d.ax ^ 2 + d.ay ^ 2 + d.az ^ 2
            ∧ Real.sqrt ((p.g_force_sq : ℝ))
              = Real.sqrt (((d.ax ^ 2 + d.ay ^ 2 + d.az ^ 2 : ℚ) : ℝ)) / (981 / 100)) := by
  constructor
  · simp only [detect_impact]
    split <;> simp_all
  · intro e he
    simp only [detect_impact] at he
    split at he
    · cases he
      refine ⟨rfl, rfl, ⟨_, rfl, rfl, rfl, ?_⟩⟩
      have hx : (0 : ℝ) ≤ ((d.ax ^ 2 + d.ay ^ 2 + d.az ^ 2 : ℚ) : ℝ) := by
        push_cast
        positivity
      have hc : (0 : ℝ) ≤ (981 / 100 : ℝ) := by norm_num
      have hcast : (((d.ax ^ 2 + d.ay ^ 2 + d.az ^ 2) / gAccel ^ 2 : ℚ) : ℝ)
          = ((d.ax ^ 2 + d.ay ^ 2 + d.az ^ 2 : ℚ) : ℝ) / (981 / 100 : ℝ) ^ 2 := by
        simp only [gAccel]
        push_cast
        ring
      rw [hcast, Real.sqrt_div hx, Real.sqrt_sq hc]
    · cases he

/-! ## The key-value store (Redis), modelled as explicit state -/

/-- A JSON field value as written by store_session_config. -/
inductive JField where
  | jnull
  | jnum (q : ℚ)
  | jstr (s : String)
  | jvec (xs : List ℚ)
deriving DecidableEq

/-- A JSON-serialised record stored in Redis, modelled by type. A list entry
that is not of the shape a reader expects models an individually corrupt
entry (the reader skips it). -/
inductive RVal where
  | imu (d : IMUData)
  | swing (sw : SwingData)
  | event (e : SwingEvent)
  | config (fields : List (String × JField))
deriving DecidableEq

/-- The Redis database: scalar keys (SET/GET) and list keys
(LPUSH/LTRIM/LRANGE). -/
structure RedisState where
  kv : List (String × RVal)
  lists : List (String × List RVal)
deriving DecidableEq

def emptyRedis : RedisState := ⟨[], []⟩

def rget (s : RedisState) (k : String) : Option RVal := s.kv.lookup k

def rset (s : RedisState) (k : String) (v : RVal) : RedisState :=
  { s with kv := (k, v) :: s.kv.filter (fun p => p.1 != k) }

def getList (s : RedisState) (k : String) : List RVal :=
  (s.lists.lookup k).getD []

def setList (s : RedisState) (k : String) (l : List RVal) : RedisState :=
  { s with lists := (k, l) :: s.lists.filter (fun p => p.1 != k) }

/-- LPUSH key v: prepend to the list at key (created when absent). -/
def lpush (s : RedisState) (k : String) (v : RVal) : RedisState :=
  setList s k (v :: getList s k)

/-- LTRIM key 0 stop: keep the first stop+1 entries. -/
def ltrim (s : RedisState) (k : String) (stop : ℕ) : RedisState :=
  setList s k ((getList s k).take (stop + 1))

/-- LRANGE key 0 (count-1): the first count entries. -/
def lrangeTake (s : RedisState) (k : String) (count : ℕ) : List RVal :=
  (getList s k).take count

/-- LRANGE key 0 -1: the whole list. -/
def lrangeAll (s : RedisState) (k : String) : List RVal :=
  getList s k

/-- DEL key: removes the key whatever its type. -/
def delKey (s : RedisState) (k : String) : RedisState :=
  { kv := s.kv.filter (fun p => p.1 != k),
    lists := s.lists.filter (fun p => p.1 != k) }

def delKeys (s : RedisState) (ks : List String) : RedisState :=
  ks.foldl delKey s

/-- A glob with a fixed stem and a trailing star matches a key iff the key's
character sequence starts with the stem's. -/
def globMatch (stem k : String) : Bool :=
  stem.data.isPrefixOf k.data

/-- KEYS pre* : every key of the database that starts with pre. -/
def keysWithStart (s : RedisState) (pre : String) : List String :=
  (s.kv.map Prod.fst ++ s.lists.map Prod.fst).filter (fun k => globMatch pre k)

/-! ## Key construction (models.py RedisKey.to_key and the literal keys
written in redis_manager.py) -/

/-- RedisKey.to_key (models.py lines 69-78). -/
def RedisKey.to_key (session_id user_id club_id data_type : String) : String :=
  "session:" ++ session_id ++ ":user:" ++ user_id ++ ":club:" ++ club_id
    ++ ":" ++ data_type

/-- The key store_imu_data and get_imu_buffer address. -/
def imuBufferKey (cfg : SessionConfig) : String :=
  RedisKey.to_key cfg.session_id cfg.user_id cfg.club_id "imu_buffer"

/-- store_swing_data / get_swing_data use this literal key (redis_manager.py
lines 180 and 416), not RedisKey.to_key. -/
def swingsListKey (session_id : String) : String :=
  "session:" ++ session_id ++ ":swings"

/-- store_swing_event uses this literal key (redis_manager.py line 210). -/
def eventsListKey (session_id : String) : String :=
  "session:" ++ session_id ++ ":events"

/-- get_recent_swings reads through RedisKey.to_key with data_type
"swing_data" (redis_manager.py lines 223-231). -/
def recentSwingsKey (cfg : SessionConfig) : String :=
  RedisKey.to_key cfg.session_id cfg.user_id cfg.club_id "swing_data"

/-- The singleton config key (redis_manager.py lines 320 and 343). -/
def sessionConfigKey (session_id : String) : String :=
  "session_config:" ++ session_id

/-- The per-session counter key (redis_manager.py lines 267 and 405). -/
def imuCounterKey (session_id : String) : String :=
  "imu_counter:" ++ session_id

/-! ## Session config serialisation (redis_manager.py lines 317-363) -/

/-- The JSON object store_session_config writes. -/
def encodeConfig (c : SessionConfig) : List (String × JField) :=
  [("session_id", .jstr c.session_id),
   ("user_id", .jstr c.user_id),
   ("club_id", .jstr c.club_id),
   ("club_length", .jnum c.club_length),
   ("club_mass", .jnum c.club_mass),
   ("face_normal_calibration",
     match c.face_normal_calibration with
     | none => .jnull
     | some v => .jvec v),
   ("impact_threshold", .jnum c.impact_threshold),
   ("session_start_time", .jstr c.session_start_time)]

def asStr : Option JField → Option String
  | some (.jstr s) => some s
  | _ => none

def asNum : Option JField → Option ℚ
  | some (.jnum q) => some q
  | _ => none

def asOptVec : Option JField → Option (Option (List ℚ))
  | some .jnull => some none
  | some (.jvec v) => some (some v)
  | _ => none

/-- The field-by-field read get_session_config performs; a missing or
ill-typed field raises in the Python, is caught, and yields None. -/
def decodeConfig (fields : List (String × JField)) : Option SessionConfig := do
  let session_id ← asStr (fields.lookup "session_id")
  let user_id ← asStr (fields.lookup "user_id")
  let club_id ← asStr (fields.lookup "club_id")
  let club_length ← asNum (fields.lookup "club_length")
  let club_mass ← asNum (fields.lookup "club_mass")
  let cal ← asOptVec (fields.lookup "face_normal_calibration")
  let impact_threshold ← asNum (fields.lookup "impact_threshold")
  let session_start_time ← asStr (fields.lookup "session_start_time")
  some { session_id, user_id, club_id, club_length, club_mass,
         face_normal_calibration := cal, impact_threshold,
         session_start_time }

/-! ## RedisManager operations -/

/-- RedisManager.store_session_config (lines 317-338). -/
def store_session_config (s : RedisState) (cfg : SessionConfig) :
    RedisState × Bool :=
  (rset s (sessionConfigKey cfg.session_id) (.config (encodeConfig cfg)), true)

/-- RedisManager.get_session_config (lines 340-363). -/
def get_session_config (s : RedisState) (session_id : String) :
    Option SessionConfig :=
  match rget s (sessionConfigKey session_id) with
  | some (.config fields) => decodeConfig fields
  | _ => none

/-- RedisManager.store_imu_data (lines 71-109): LPUSH the serialised sample,
then LTRIM 0 999. -/
def store_imu_data (s : RedisState) (d : IMUData) (cfg : SessionConfig) :
    RedisState × Bool :=
  let k := imuBufferKey cfg
  (ltrim (lpush s k (.imu d)) k 999, true)

/-- RedisManager.get_imu_buffer (lines 111-148): LRANGE 0 count-1 when count
is given and nonzero (Python `if count:` treats 0 like None), the whole list
otherwise; entries that fail to parse back are skipped. -/
def get_imu_buffer (s : RedisState) (cfg : SessionConfig) (count : Option ℕ) :
    List IMUData :=
  let k := imuBufferKey cfg
  let vs := match count with
    | some (c + 1) => lrangeTake s k (c + 1)
    | _ => lrangeAll s k
  vs.filterMap (fun v => match v with | .imu d => some d | _ => none)

/-- RedisManager.store_swing_data (lines 150-190): LPUSH on the literal
swings key, then LTRIM 0 99. -/
def store_swing_data (s : RedisState) (sw : SwingData) (cfg : SessionConfig) :
    RedisState × Bool :=
  let k := swingsListKey cfg.session_id
  (ltrim (lpush s k (.swing sw)) k 99, true)

/-- RedisManager.store_swing_event (lines 192-218): LPUSH on the literal
events key, then LTRIM 0 999. -/
def store_swing_event (s : RedisState) (e : SwingEvent) (cfg : SessionConfig) :
    RedisState × Bool :=
  let k := eventsListKey cfg.session_id
  (ltrim (lpush s k (.event e)) k 999, true)

/-- RedisManager.get_swing_data (lines 413-451): LRANGE 0 count-1 on the
swings key; entries that fail to parse are skipped. -/
def get_swing_data (s : RedisState) (cfg : SessionConfig) (count : ℕ) :
    List SwingData :=
  (lrangeTake s (swingsListKey cfg.session_id) count).filterMap
    (fun v => match v with | .swing sw => some sw | _ => none)

/-- RedisManager.clear_session_data (lines 387-411): refuse when the session
config does not exist; otherwise DEL every key matching session:<sid>:*,
then the config key, then the counter key. The Python returns False instead
of raising; the model is a total function. -/
def clear_session_data (s : RedisState) (session_id : String) :
    RedisState × Bool :=
  match get_session_config s session_id with
  | none => (s, false)
  | some _ =>
    let ks := keysWithStart s ("session:" ++ session_id ++ ":")
    let s1 := delKeys s ks
    let s2 := delKey s1 (sessionConfigKey session_id)
    let s3 := delKey s2 (imuCounterKey session_id)
    (s3, true)

/-! ## SessionManager operations (session_manager.py) -/

/-- SessionManager.load_session (lines 46-55): the value returned to the
caller (on success it also becomes the current-session pointer). -/
def load_session (s : RedisState) (session_id : String) :
    Option SessionConfig :=
  get_session_config s session_id

/-- SessionManager.create_session (lines 20-44): builds the SessionConfig
(the fresh uuid is the new_id parameter; `impact_threshold or 30.0` in
Python falls back to the default also when 0.0 is passed, 0.0 being falsy)
and stores it. No validation of the threshold happens anywhere. -/
def create_session (s : RedisState) (new_id user_id club_id : String)
    (club_length club_mass : ℚ) (cal : Option (List ℚ)) (thr : Option ℚ)
    (now : String) : RedisState × SessionConfig :=
  let t := match thr with
    | none => 30
    | some v => if v = 0 then 30 else v
  let cfg : SessionConfig :=
    { session_id := new_id, user_id, club_id, club_length, club_mass,
      face_normal_calibration := cal, impact_threshold := t,
      session_start_time := now }
  ((store_session_config s cfg).1, cfg)

/-! ## Thresholds (global_config.py lines 45-48) -/

/-- DEFAULT_IMPACT_THRESHOLD_G. -/
def DEFAULT_IMPACT_THRESHOLD_G : ℚ := 30

/-- MIN_IMPACT_THRESHOLD_G, documented "Minimum allowed threshold". -/
def MIN_IMPACT_THRESHOLD_G : ℚ := 5

/-- MAX_IMPACT_THRESHOLD_G, documented "Maximum allowed threshold". -/
def MAX_IMPACT_THRESHOLD_G : ℚ := 100

/-! ## Concrete fixtures shared by closed theorems -/

def cfg0 : SessionConfig :=
  { session_id := "s", user_id := "u", club_id := "c", club_length := 1,
    club_mass := 1, face_normal_calibration := none, impact_threshold := 30,
    session_start_time := "t" }

def d0 : IMUData :=
  { ax := 300, ay := 400, az := 0, gx := 0, gy := 0, gz := 0, mx := 0,
    my := 0, mz := 0, qw := 1, qx := 0, qy := 0, qz := 0, timestamp := "ts" }

def sw0 : SwingData :=
  { swing_id := "sw", session_id := "s", imu_data_points := [],
    swing_start_time := "t0", swing_end_time := "t1", swing_duration := 0,
    impact_g_force := 0, swing_type := "full_swing" }

/-! ## C5: session config round-trip -/

theorem rget_rset_self (s : RedisState) (k : String) (v : RVal) :
    rget (rset s k v) k = some v := by
  simp [rget, rset, List.lookup]

/-- C5: encoding any SessionConfig through store_session_config and decoding
it back through get_session_config returns it field-for-field, with or
without the optional calibration vector, threshold included. -/
theorem session_config_roundtrip (s : RedisState) (cfg : SessionConfig) :
    get_session_config (store_session_config s cfg).1 cfg.session_id
      = some cfg := by
  simp only [get_session_config, store_session_config]
  rw [rget_rset_self]
  obtain ⟨sid, uid, cid, len, mass, cal, thr, t0⟩ := cfg
  cases cal <;> rfl

/-! ## C9: thresholds outside the documented sane range are accepted -/

/-- C9 (code bug): create_session performs no threshold validation: a request
with threshold 200 g, twice the documented MAX_IMPACT_THRESHOLD_G, succeeds,
and the out-of-range threshold is stored and read back verbatim. -/
theorem create_session_accepts_out_of_range_threshold :
    (create_session emptyRedis "sid0" "u0" "c0" 1 1 none (some 200)
        "t0").2.impact_threshold = 200
    ∧ MAX_IMPACT_THRESHOLD_G < 200
    ∧ get_session_config
        (create_session emptyRedis "sid0" "u0" "c0" 1 1 none (some 200) "t0").1
        "sid0"
      = some (create_session emptyRedis "sid0" "u0" "c0" 1 1 none (some 200)
          "t0").2 := by
  refine ⟨by norm_num [create_session], by norm_num [MAX_IMPACT_THRESHOLD_G], ?_⟩
  decide

/-! ## C6: the addressing scheme actually used -/

/-- The addressing scheme the claim states for list data, written from its
words: session:<session_id>:<user_id>:<club_id>:<record_kind>. -/
def claimedListKey (session_id user_id club_id record_kind : String) : String :=
  "session:" ++ session_id ++ ":" ++ user_id ++ ":" ++ club_id ++ ":"
    ++ record_kind

/-- C6 counterexample: the keys the code writes do not follow the claimed
scheme: the RedisKey-based buffer key interposes the literals user: and
club:, and the swing and event lists drop user and club ids entirely. -/
theorem key_scheme_counterexample :
    ((store_imu_data emptyRedis d0 cfg0).1.lists.map Prod.fst
        = ["session:s:user:u:club:c:imu_buffer"])
    ∧ "session:s:user:u:club:c:imu_buffer"
        ≠ claimedListKey "s" "u" "c" "imu_buffer"
    ∧ ((store_swing_data emptyRedis sw0 cfg0).1.lists.map Prod.fst
        = ["session:s:swings"])
    ∧ "session:s:swings" ≠ claimedListKey "s" "u" "c" "swings"
    ∧ ((store_swing_event emptyRedis
          ⟨"e", "s", "impact", "t", none⟩ cfg0).1.lists.map Prod.fst
        = ["session:s:events"])
    ∧ "session:s:events" ≠ claimedListKey "s" "u" "c" "events" := by
  decide

/-- A key of the scheme the code actually uses: RedisKey.to_key keys (the
streaming buffer and the swing_data read key), the literal swings and events
list keys, the singleton config key and the counter key. -/
def isActualKey (k : String) : Prop :=
  (∃ sid uid cid dtype, (dtype = "imu_buffer" ∨ dtype = "swing_data")
      ∧ k = RedisKey.to_key sid uid cid dtype)
  ∨ (∃ sid, k = swingsListKey sid)
  ∨ (∃ sid, k = eventsListKey sid)
  ∨ (∃ sid, k = sessionConfigKey sid)
  ∨ (∃ sid, k = imuCounterKey sid)

/-- One write through the store adapter. -/
inductive StoreOp where
  | putImu (d : IMUData) (cfg : SessionConfig)
  | putSwing (sw : SwingData) (cfg : SessionConfig)
  | putEvent (e : SwingEvent) (cfg : SessionConfig)
  | putConfig (cfg : SessionConfig)

def applyOp (s : RedisState) : StoreOp → RedisState
  | .putImu d cfg => (store_imu_data s d cfg).1
  | .putSwing sw cfg => (store_swing_data s sw cfg).1
  | .putEvent e cfg => (store_swing_event s e cfg).1
  | .putConfig cfg => (store_session_config s cfg).1

def runOps (s : RedisState) (ops : List StoreOp) : RedisState :=
  ops.foldl applyOp s

/-- Every key present in the database. -/
def stateKeys (s : RedisState) : List String :=
  s.kv.map Prod.fst ++ s.lists.map Prod.fst

theorem stateKeys_setList (s : RedisState) (k : String) (l : List RVal) :
    ∀ x ∈ stateKeys (setList s k l), x = k ∨ x ∈ stateKeys s := by
  intro x hx
  simp only [stateKeys, setList, List.map_cons, List.mem_append, List.mem_cons,
    List.mem_map, List.mem_filter] at hx ⊢
  rcases hx with h | h | ⟨p, ⟨hp, _⟩, he⟩
  · exact Or.inr (Or.inl h)
  · exact Or.inl h
  · exact Or.inr (Or.inr ⟨p, hp, he⟩)

theorem stateKeys_rset (s : RedisState) (k : String) (v : RVal) :
    ∀ x ∈ stateKeys (rset s k v), x = k ∨ x ∈ stateKeys s := by
  intro x hx
  simp only [stateKeys, rset, List.map_cons, List.mem_append, List.mem_cons,
    List.mem_map, List.mem_filter] at hx ⊢
  rcases hx with (h | ⟨p, ⟨hp, _⟩, he⟩) | h
  · exact Or.inl h
  · exact Or.inr (Or.inl ⟨p, hp, he⟩)
  · exact Or.inr (Or.inr h)

theorem isActualKey_imuBufferKey (cfg : SessionConfig) :
    isActualKey (imuBufferKey cfg) :=
  Or.inl ⟨cfg.session_id, cfg.user_id, cfg.club_id, "imu_buffer",
    Or.inl rfl, rfl⟩

theorem isActualKey_recentSwingsKey (cfg : SessionConfig) :
    isActualKey (recentSwingsKey cfg) :=
  Or.inl ⟨cfg.session_id, cfg.user_id, cfg.club_id, "swing_data",
    Or.inr rfl, rfl⟩

theorem applyOp_keys (s : RedisState) (op : StoreOp)
    (h : ∀ x ∈ stateKeys s, isActualKey x) :
    ∀ x ∈ stateKeys (applyOp s op), isActualKey x := by
  have step :
      ∀ (s' : RedisState) (k : String) (l : List RVal), isActualKey k →
        (∀ x ∈ stateKeys s', isActualKey x) →
        ∀ x ∈ stateKeys (setList s' k l), isActualKey x := by
    intro s' k l hk hs x hx
    rcases stateKeys_setList s' k l x hx with rfl | hmem
    · exact hk
    · exact hs x hmem
  cases op with
  | putImu d cfg =>
    intro x hx
    exact step _ _ _ (isActualKey_imuBufferKey cfg)
      (step _ _ _ (isActualKey_imuBufferKey cfg) h) x hx
  | putSwing sw cfg =>
    intro x hx
    exact step _ _ _ (Or.inr (Or.inl ⟨cfg.session_id, rfl⟩))
      (step _ _ _ (Or.inr (Or.inl ⟨cfg.session_id, rfl⟩)) h) x hx
  | putEvent e cfg =>
    intro x hx
    exact step _ _ _ (Or.inr (Or.inr (Or.inl ⟨cfg.session_id, rfl⟩)))
      (step _ _ _ (Or.inr (Or.inr (Or.inl ⟨cfg.session_id, rfl⟩))) h) x hx
  | putConfig cfg =>
    intro x hx
    rcases stateKeys_rset s (sessionConfigKey cfg.session_id)
        (.config (encodeConfig cfg)) x hx with rfl | hmem
    · exact Or.inr (Or.inr (Or.inr (Or.inl ⟨cfg.session_id, rfl⟩)))
    · exact h x hmem

/-- C6 (amended): the addressing scheme the code actually uses. Every key in
a database produced by any sequence of store operations from the empty
database is of one of the real shapes (session:<sid>:user:<uid>:club:<cid>:
imu_buffer for the streaming buffer, session:<sid>:swings and
session:<sid>:events for the swing and event lists, session_config:<sid>
for the config, imu_counter:<sid> for the counter), and every read addresses
such a key as well (the buffer read uses the RedisKey form with imu_buffer,
get_recent_swings the RedisKey form with swing_data, get_swing_data the
literal swings key). -/
theorem actual_key_scheme :
    (∀ ops : List StoreOp, ∀ x ∈ stateKeys (runOps emptyRedis ops),
      isActualKey x)
    ∧ (∀ cfg : SessionConfig, isActualKey (imuBufferKey cfg)
        ∧ isActualKey (recentSwingsKey cfg))
    ∧ (∀ sid : String, isActualKey (swingsListKey sid)
        ∧ isActualKey (eventsListKey sid)
        ∧ isActualKey (sessionConfigKey sid)
        ∧ isActualKey (imuCounterKey sid)) := by
  refine ⟨?_, ?_, ?_⟩
  · intro ops
    have : ∀ (s : RedisState), (∀ x ∈ stateKeys s, isActualKey x) →
        ∀ x ∈ stateKeys (runOps s ops), isActualKey x := by
      induction ops with
      | nil => intro s hs; exact hs
      | cons op rest ih =>
        intro s hs
        exact ih (applyOp s op) (applyOp_keys s op hs)
    exact this emptyRedis (by intro x hx; simp [stateKeys, emptyRedis] at hx)
  · intro cfg
    exact ⟨isActualKey_imuBufferKey cfg, isActualKey_recentSwingsKey cfg⟩
  · intro sid
    exact ⟨Or.inr (Or.inl ⟨sid, rfl⟩), Or.inr (Or.inr (Or.inl ⟨sid, rfl⟩)),
      Or.inr (Or.inr (Or.inr (Or.inl ⟨sid, rfl⟩))),
      Or.inr (Or.inr (Or.inr (Or.inr ⟨sid, rfl⟩)))⟩

/-! ## C7: clearing a nonexistent session -/

/-- C7: clear_session_data on a session id with no stored config returns the
failure value False and leaves the whole database unchanged (so every other
session's config and lists are untouched), and that is the only case in
which it returns False: the result is (s, false) exactly when the session
config does not exist. The Python returns rather than raising; the model is
a total function. -/
theorem clear_nonexistent_session_noop (s : RedisState) (sid : String) :
    clear_session_data s sid = (s, false) ↔ get_session_config s sid = none := by
  cases heq : get_session_config s sid with
  | none => simp [clear_session_data, heq]
  | some cfg => simp [clear_session_data, heq]

/-! ## C10: precondition checks before sending to the device
(GolfIMUBackend.send_session_config_to_arduino, main.py lines 83-96, and
GolfIMUBackend.start_swing_monitoring, lines 98-107) -/

/-- The backend state the precondition checks consult. -/
structure BackendState where
  current_session : Option SessionConfig
  arduino_connected : Bool
deriving DecidableEq

/-- What goes over the wire: a command line or the CONFIG: JSON line. -/
inductive SerialMsg where
  | command (c : String)
  | configMsg (fields : List (String × JField))
deriving DecidableEq

/-- SerialManager.send_command (serial_manager.py lines 177-194): refuses
when not connected, else writes the command line. -/
def send_command (connected : Bool) (c : String) : Option SerialMsg :=
  if connected then some (.command c) else none

/-- SerialManager.send_session_config (serial_manager.py lines 147-175):
refuses when not connected, else writes CONFIG: followed by the six-field
JSON object. -/
def serial_send_session_config (connected : Bool) (cfg : SessionConfig) :
    Option SerialMsg :=
  if connected then
    some (.configMsg
      [("session_id", .jstr cfg.session_id),
       ("user_id", .jstr cfg.user_id),
       ("club_id", .jstr cfg.club_id),
       ("club_length", .jnum cfg.club_length),
       ("club_mass", .jnum cfg.club_mass),
       ("impact_threshold", .jnum cfg.impact_threshold)])
  else none

/-- GolfIMUBackend.send_session_config_to_arduino: checks the active session,
then the connection, then delegates. none models returning False without
sending anything. -/
def send_session_config_to_arduino (b : BackendState) : Option SerialMsg :=
  match b.current_session with
  | none => none
  | some cfg =>
    if b.arduino_connected then
      serial_send_session_config b.arduino_connected cfg
    else none

/-- GolfIMUBackend.start_swing_monitoring: checks only the connection, then
delegates to SerialManager.start_swing_monitoring, which sends the
START_MONITORING command. -/
def backend_start_swing_monitoring (b : BackendState) : Option SerialMsg :=
  if b.arduino_connected then
    send_command b.arduino_connected "START_MONITORING"
  else none

/-- A backend state with a connected transport and no active session. -/
def noSessionConnected : BackendState :=
  { current_session := none, arduino_connected := true }

/-- C10 counterexample: with no active session but a connected transport,
start_swing_monitoring proceeds and sends START_MONITORING: it does not
perform the active-session precondition check the claim states. -/
theorem start_monitoring_no_session_counterexample :
    backend_start_swing_monitoring noSessionConnected
        = some (SerialMsg.command "START_MONITORING")
    ∧ noSessionConnected.current_session = none := by
  exact ⟨rfl, rfl⟩

/-- C10 (amended): send config checks both preconditions (it proceeds iff a
session is active and the transport is connected); start monitoring checks
only the transport (it proceeds iff connected, with or without a session).
Both return a failure value rather than raising when refusing. -/
theorem precondition_checks_amended (b : BackendState) :
    ((send_session_config_to_arduino b).isSome ↔
      b.current_session.isSome ∧ b.arduino_connected = true)
    ∧ ((backend_start_swing_monitoring b).isSome ↔
      b.arduino_connected = true) := by
  obtain ⟨cs, conn⟩ := b
  cases cs <;> cases conn <;>
    simp [send_session_config_to_arduino, backend_start_swing_monitoring,
      serial_send_session_config, send_command]

/-! ## C2: capped list discipline (LPUSH then LTRIM) -/

theorem getList_setList_self (s : RedisState) (k : String) (l : List RVal) :
    getList (setList s k l) k = l := by
  simp [getList, setList]

theorem take_append_take {α : Type} (n : ℕ) (A l : List α) :
    (A ++ l.take n).take n = (A ++ l).take n := by
  rw [List.take_append_eq_append_take, List.take_append_eq_append_take,
    List.take_take, Nat.min_eq_left (Nat.sub_le n A.length)]

theorem getList_lpush_ltrim (s : RedisState) (k : String) (v : RVal)
    (stop : ℕ) :
    getList (ltrim (lpush s k v) k stop) k = (v :: getList s k).take (stop + 1) := by
  simp [ltrim, lpush, getList_setList_self]

theorem foldl_capped_push (k : String) (stop : ℕ) {α : Type} (f : α → RVal)
    (vs : List α) :
    ∀ (s : RedisState), (getList s k).length ≤ stop + 1 →
      getList (vs.foldl (fun st a => ltrim (lpush st k (f a)) k stop) s) k
        = ((vs.map f).reverse ++ getList s k).take (stop + 1) := by
  induction vs with
  | nil =>
    intro s h
    simp [List.take_of_length_le h]
  | cons a t ih =>
    intro s h
    have hstep := getList_lpush_ltrim s k (f a) stop
    have hlen : (getList (ltrim (lpush s k (f a)) k stop) k).length ≤ stop + 1 := by
      rw [hstep]
      simp
    rw [List.foldl_cons, ih _ hlen, hstep, take_append_take]
    simp [List.append_assoc]

/-- Repeated store_imu_data calls: the streaming-buffer write path. -/
def push_imu_samples (s : RedisState) (cfg : SessionConfig)
    (ds : List IMUData) : RedisState :=
  ds.foldl (fun st d => (store_imu_data st d cfg).1) s

/-- Repeated store_swing_data calls: the swing-list write path. -/
def push_swings (s : RedisState) (cfg : SessionConfig)
    (sws : List SwingData) : RedisState :=
  sws.foldl (fun st sw => (store_swing_data st sw cfg).1) s

/-- Repeated store_swing_event calls: the event-list write path. -/
def push_events (s : RedisState) (cfg : SessionConfig)
    (evs : List SwingEvent) : RedisState :=
  evs.foldl (fun st e => (store_swing_event st e cfg).1) s

theorem push_imu_samples_eq (s : RedisState) (cfg : SessionConfig)
    (ds : List IMUData) :
    push_imu_samples s cfg ds
      = ds.foldl
          (fun st a => ltrim (lpush st (imuBufferKey cfg) (.imu a))
            (imuBufferKey cfg) 999) s := rfl

theorem push_swings_eq (s : RedisState) (cfg : SessionConfig)
    (sws : List SwingData) :
    push_swings s cfg sws
      = sws.foldl
          (fun st a => ltrim (lpush st (swingsListKey cfg.session_id) (.swing a))
            (swingsListKey cfg.session_id) 99) s := rfl

theorem push_events_eq (s : RedisState) (cfg : SessionConfig)
    (evs : List SwingEvent) :
    push_events s cfg evs
      = evs.foldl
          (fun st a => ltrim (lpush st (eventsListKey cfg.session_id) (.event a))
            (eventsListKey cfg.session_id) 999) s := rfl

theorem filterMap_imu_map (l : List IMUData) :
    (l.map RVal.imu).filterMap
      (fun v => match v with | .imu d => some d | _ => none) = l := by
  induction l with
  | nil => rfl
  | cons d t ih => simp [List.filterMap_cons, ih]

theorem filterMap_swing_map (l : List SwingData) :
    (l.map RVal.swing).filterMap
      (fun v => match v with | .swing sw => some sw | _ => none) = l := by
  induction l with
  | nil => rfl
  | cons sw t ih => simp [List.filterMap_cons, ih]

theorem get_imu_buffer_after_pushes (s : RedisState) (cfg : SessionConfig)
    (ds : List IMUData) (h : getList s (imuBufferKey cfg) = []) :
    get_imu_buffer (push_imu_samples s cfg ds) cfg none
      = ds.reverse.take 1000 := by
  have hfold := foldl_capped_push (imuBufferKey cfg) 999 RVal.imu ds s
    (by rw [h]; simp)
  rw [h, List.append_nil] at hfold
  simp only [get_imu_buffer, lrangeAll, ← push_imu_samples_eq] at *
  rw [hfold, List.reverse_map, ← List.map_take, filterMap_imu_map]

theorem get_swing_data_after_pushes (s : RedisState) (cfg : SessionConfig)
    (sws : List SwingData) (h : getList s (swingsListKey cfg.session_id) = []) :
    get_swing_data (push_swings s cfg sws) cfg 100 = sws.reverse.take 100 := by
  have hfold := foldl_capped_push (swingsListKey cfg.session_id) 99 RVal.swing
    sws s (by rw [h]; simp)
  rw [h, List.append_nil] at hfold
  simp only [get_swing_data, lrangeTake, ← push_swings_eq] at *
  rw [hfold, List.take_take, List.reverse_map, ← List.map_take,
    filterMap_swing_map]
  norm_num

/-- C2 (amended): for each capped list kind (streaming buffer capped at
1000, swing list at 100, event list at 1000), after any sequence of pushes
from an empty list the stored list never exceeds its cap, the oldest entries
are evicted first (only the most recent cap records remain), and reading the
list back returns exactly the cap most recently pushed records in
most-recent-first order — the reverse of push order, since the
implementation is LPUSH + LTRIM read by LRANGE from the front. -/
theorem capped_lists_bounded_most_recent_first (s : RedisState)
    (cfg : SessionConfig) (ds : List IMUData) (sws : List SwingData)
    (evs : List SwingEvent)
    (h1 : getList s (imuBufferKey cfg) = [])
    (h2 : getList s (swingsListKey cfg.session_id) = [])
    (h3 : getList s (eventsListKey cfg.session_id) = []) :
    ((getList (push_imu_samples s cfg ds) (imuBufferKey cfg)).length ≤ 1000
      ∧ get_imu_buffer (push_imu_samples s cfg ds) cfg none
          = ds.reverse.take 1000)
    ∧ ((getList (push_swings s cfg sws) (swingsListKey cfg.session_id)).length
          ≤ 100
      ∧ get_swing_data (push_swings s cfg sws) cfg 100 = sws.reverse.take 100)
    ∧ ((getList (push_events s cfg evs) (eventsListKey cfg.session_id)).length
          ≤ 1000
      ∧ getList (push_events s cfg evs) (eventsListKey cfg.session_id)
          = (evs.reverse.map RVal.event).take 1000) := by
  have he := foldl_capped_push (eventsListKey cfg.session_id) 999 RVal.event
    evs s (by rw [h3]; simp)
  rw [h3, List.append_nil] at he
  have hi := foldl_capped_push (imuBufferKey cfg) 999 RVal.imu ds s
    (by rw [h1]; simp)
  rw [h1, List.append_nil] at hi
  have hs := foldl_capped_push (swingsListKey cfg.session_id) 99 RVal.swing
    sws s (by rw [h2]; simp)
  rw [h2, List.append_nil] at hs
  refine ⟨⟨?_, get_imu_buffer_after_pushes s cfg ds h1⟩,
    ⟨?_, get_swing_data_after_pushes s cfg sws h2⟩, ⟨?_, ?_⟩⟩
  · rw [push_imu_samples_eq, hi]
    simp
  · rw [push_swings_eq, hs]
    simp
  · rw [push_events_eq, he]
    simp
  · rw [push_events_eq, he, List.reverse_map]

/-- Witness for C2's amended theorem at a concrete session, sample and swing. -/
theorem capped_lists_bounded_most_recent_first_witness :
    get_imu_buffer (push_imu_samples emptyRedis cfg0 [d0]) cfg0 none = [d0] :=
  (capped_lists_bounded_most_recent_first emptyRedis cfg0 [d0] [sw0] []
    rfl rfl rfl).1.2

/-- The i-th swing pushed in the C2 counterexample run, distinguished by its
duration. -/
def cexSwing (i : ℕ) : SwingData :=
  { swing_id := "sw", session_id := "s", imu_data_points := [],
    swing_start_time := "t0", swing_end_time := "t1",
    swing_duration := (i : ℚ), impact_g_force := 0,
    swing_type := "full_swing" }

/-- 101 swings pushed in order: one more than the swing-list cap of 100. -/
def cexSwings : List SwingData := (List.range 101).map cexSwing

/-- C2 counterexample: after pushing 101 swings (M = 101 > N = 100) into an
empty database, reading the list back does not return the 100 most recently
pushed records in push order (that would be swings 1..100, oldest of the
kept ones first): the read returns them most-recent-first. -/
theorem capped_list_not_push_order :
    get_swing_data (push_swings emptyRedis cfg0 cexSwings) cfg0 100
      ≠ cexSwings.drop 1 := by
  have hL : get_swing_data (push_swings emptyRedis cfg0 cexSwings) cfg0 100
      = cexSwings.reverse.take 100 :=
    get_swing_data_after_pushes emptyRedis cfg0 cexSwings rfl
  intro h
  rw [hL] at h
  have h1 : (cexSwings.reverse.take 100).head? = some (cexSwing 100) := by
    have hr : cexSwings.reverse
        = cexSwing 100 :: ((List.range 100).map cexSwing).reverse := by
      unfold cexSwings
      rw [show (101 : ℕ) = 100 + 1 from rfl, List.range_succ,
        List.map_append, List.reverse_append]
      simp
    rw [hr]
    rfl
  have h2 : (cexSwings.drop 1).head? = some (cexSwing 1) := by
    unfold cexSwings
    rw [show (101 : ℕ) = 100 + 1 from rfl, List.range_succ_eq_map,
      List.map_cons, List.drop_succ_cons, List.drop_zero, List.map_map,
      List.head?_map, show (100 : ℕ) = 99 + 1 from rfl,
      List.range_succ_eq_map]
    rfl
  rw [h] at h1
  have heq : cexSwing 100 = cexSwing 1 :=
    Option.some.inj (h1.symm.trans h2)
  have : (100 : ℚ) = 1 := congrArg SwingData.swing_duration heq
  norm_num at this

/-! ## C4: clearing a session removes the config and every dependent record -/

theorem lookup_filterKey {β : Type} (k kd : String) (l : List (String × β)) :
    (l.filter (fun p => p.1 != kd)).lookup k
      = if k = kd then none else l.lookup k := by
  induction l with
  | nil => simp
  | cons p t ih =>
    obtain ⟨a, b⟩ := p
    by_cases had : a = kd
    · subst had
      simp only [List.filter_cons, bne_self_eq_false, Bool.false_eq_true,
        if_false, ih]
      by_cases hk : k = a
      · simp [hk]
      · have hba : (k == a) = false := beq_eq_false_iff_ne.mpr hk
        simp [List.lookup_cons, hba]
    · have hba : ((a, b).1 != kd) = true := by
        simpa using had
      simp only [List.filter_cons, hba, if_true]
      by_cases hk : k = a
      · subst hk
        simp [List.lookup_cons, had]
      · have hkb : (k == a) = false := beq_eq_false_iff_ne.mpr hk
        simp [List.lookup_cons, hkb, ih]

theorem rget_delKey (s : RedisState) (k kd : String) :
    rget (delKey s kd) k = if k = kd then none else rget s k :=
  lookup_filterKey k kd s.kv

theorem getList_delKey (s : RedisState) (k kd : String) :
    getList (delKey s kd) k = if k = kd then [] else getList s k := by
  have h : (delKey s kd).lists = s.lists.filter (fun p => p.1 != kd) := rfl
  unfold getList
  rw [h, lookup_filterKey]
  by_cases hk : k = kd <;> simp [hk]

theorem getList_delKeys (s : RedisState) (ks : List String) (k : String) :
    getList (delKeys s ks) k = if k ∈ ks then [] else getList s k := by
  induction ks generalizing s with
  | nil => simp [delKeys]
  | cons a t ih =>
    have hstep : delKeys s (a :: t) = delKeys (delKey s a) t := rfl
    rw [hstep, ih, getList_delKey]
    by_cases hk : k ∈ t
    · simp [hk]
    · by_cases hka : k = a <;> simp [hka, hk]

theorem getList_eq_nil_of_not_mem (s : RedisState) (k : String)
    (h : k ∉ s.lists.map Prod.fst) : getList s k = [] := by
  unfold getList
  have hnone : s.lists.lookup k = none := by
    rw [List.lookup_eq_none_iff]
    intro p hp
    simp only [bne_iff_ne]
    intro hkp
    exact h (List.mem_map.mpr ⟨p, hp, hkp.symm⟩)
  rw [hnone]
  rfl

theorem globMatch_append (stem suf : String) :
    globMatch stem (stem ++ suf) = true := by
  simp only [globMatch, String.data_append, List.isPrefixOf_iff_prefix]
  exact List.prefix_append _ _

theorem to_key_split (sid uid cid dtype : String) :
    RedisKey.to_key sid uid cid dtype
      = ("session:" ++ sid ++ ":")
        ++ ("user:" ++ uid ++ ":club:" ++ cid ++ ":" ++ dtype) := by
  have hlit : ∀ X : String, ":" ++ ("user:" ++ X) = ":user:" ++ X := by
    intro X
    rw [← String.append_assoc]
    rfl
  unfold RedisKey.to_key
  simp only [String.append_assoc]
  rw [hlit]

theorem swingsListKey_split (sid : String) :
    swingsListKey sid = ("session:" ++ sid ++ ":") ++ "swings" := by
  rw [String.append_assoc]
  rfl

theorem eventsListKey_split (sid : String) :
    eventsListKey sid = ("session:" ++ sid ++ ":") ++ "events" := by
  rw [String.append_assoc]
  rfl

theorem getList_after_clear_prefixed (s : RedisState) (pre key : String)
    (hpre : globMatch pre key = true) :
    getList (delKeys s (keysWithStart s pre)) key = [] := by
  rw [getList_delKeys]
  by_cases hmem : key ∈ keysWithStart s pre
  · simp [hmem]
  · rw [if_neg hmem]
    apply getList_eq_nil_of_not_mem
    intro hk
    exact hmem (List.mem_filter.mpr ⟨List.mem_append.mpr (Or.inr hk), hpre⟩)

theorem getList_delKey_of_nil (st : RedisState) (kd key : String)
    (hk : getList st key = []) : getList (delKey st kd) key = [] := by
  rw [getList_delKey]
  by_cases hkk : key = kd <;> simp [hkk, hk]

/-- C4: for a session that exists (its config loads back), clear_session_data
succeeds, and afterwards loading that session id reports not-found and the
reads of its streaming buffer, swing list and event list all return empty. -/
theorem clear_session_removes_all (s : RedisState) (cfg : SessionConfig)
    (h : get_session_config s cfg.session_id = some cfg) :
    (clear_session_data s cfg.session_id).2 = true
    ∧ load_session (clear_session_data s cfg.session_id).1 cfg.session_id
        = none
    ∧ get_imu_buffer (clear_session_data s cfg.session_id).1 cfg none = []
    ∧ get_swing_data (clear_session_data s cfg.session_id).1 cfg 100 = []
    ∧ lrangeAll (clear_session_data s cfg.session_id).1
        (eventsListKey cfg.session_id) = [] := by
  have hclear : clear_session_data s cfg.session_id
      = (delKey (delKey (delKeys s (keysWithStart s
            ("session:" ++ cfg.session_id ++ ":")))
          (sessionConfigKey cfg.session_id))
          (imuCounterKey cfg.session_id), true) := by
    unfold clear_session_data
    rw [h]
  have hbuf : getList (clear_session_data s cfg.session_id).1
      (imuBufferKey cfg) = [] := by
    rw [hclear]
    apply getList_delKey_of_nil
    apply getList_delKey_of_nil
    apply getList_after_clear_prefixed
    unfold imuBufferKey
    rw [to_key_split]
    exact globMatch_append _ _
  have hsw : getList (clear_session_data s cfg.session_id).1
      (swingsListKey cfg.session_id) = [] := by
    rw [hclear]
    apply getList_delKey_of_nil
    apply getList_delKey_of_nil
    apply getList_after_clear_prefixed
    rw [swingsListKey_split]
    exact globMatch_append _ _
  have hev : getList (clear_session_data s cfg.session_id).1
      (eventsListKey cfg.session_id) = [] := by
    rw [hclear]
    apply getList_delKey_of_nil
    apply getList_delKey_of_nil
    apply getList_after_clear_prefixed
    rw [eventsListKey_split]
    exact globMatch_append _ _
  have hcfg : rget (clear_session_data s cfg.session_id).1
      (sessionConfigKey cfg.session_id) = none := by
    rw [hclear]
    rw [rget_delKey]
    by_cases hk : sessionConfigKey cfg.session_id
        = imuCounterKey cfg.session_id
    · simp [hk]
    · rw [if_neg hk, rget_delKey]
      simp
  refine ⟨by rw [hclear], ?_, ?_, ?_, ?_⟩
  · unfold load_session get_session_config
    rw [hcfg]
  · simp only [get_imu_buffer, lrangeAll]
    rw [hbuf]
    rfl
  · simp only [get_swing_data, lrangeTake]
    rw [hsw]
    rfl
  · simp only [lrangeAll]
    exact hev

/-- Witness for C4 at a concrete database holding one stored session. -/
theorem clear_session_removes_all_witness :
    load_session
        (clear_session_data (store_session_config emptyRedis cfg0).1
          cfg0.session_id).1 cfg0.session_id = none :=
  (clear_session_removes_all (store_session_config emptyRedis cfg0).1 cfg0
    (by decide)).2.1

/-! ## The line decoders (SerialManager.read_imu_data, serial_manager.py
lines 230-279, and GolfIMUBackend._process_c_collected_data, main.py lines
383-436). The wire format is a flat JSON object of numeric fields (spec §6);
json.loads on such records is modelled by a character-level parser written
with structural recursion. -/

/-- One raw line from the transport: either bytes that fail UTF-8 decoding
or the decoded text. -/
inductive RawLine where
  | undecodable
  | decoded (s : String)

/-- A call that either returns normally or lets an exception escape to the
caller. -/
inductive PyResult (α : Type) where
  | ok (a : α)
  | raised (exc : String)
deriving DecidableEq

/-- The record-open marker character. -/
def openBraceChar : Char := Char.ofNat 123

/-- The record-close marker character. -/
def closeBraceChar : Char := Char.ofNat 125

/-- str.strip(): leading and trailing whitespace removed. -/
def trimChars (cs : List Char) : List Char :=
  ((cs.dropWhile Char.isWhitespace).reverse.dropWhile Char.isWhitespace).reverse

def splitOnChar (sep : Char) : List Char → List (List Char)
  | [] => [[]]
  | c :: rest =>
    let r := splitOnChar sep rest
    if c == sep then [] :: r
    else
      match r with
      | [] => [[c]]
      | h :: t => (c :: h) :: t

def digitVal (c : Char) : Option ℕ :=
  if c.isDigit then some (c.toNat - 48) else none

def digitsValAux : List Char → ℕ → Option ℕ
  | [], acc => some acc
  | c :: rest, acc =>
    match digitVal c with
    | none => none
    | some d => digitsValAux rest (acc * 10 + d)

def digitsVal (cs : List Char) : Option ℕ :=
  match cs with
  | [] => none
  | _ => digitsValAux cs 0

def parseUnsigned (cs : List Char) : Option ℚ :=
  let intPart := cs.takeWhile (fun c => c != '.')
  let rest := cs.dropWhile (fun c => c != '.')
  match rest with
  | [] => (digitsVal intPart).map (fun n => (n : ℚ))
  | _ :: frac => do
    let i ← digitsVal intPart
    let f ← digitsVal frac
    some ((i : ℚ) + (f : ℚ) / (10 : ℚ) ^ frac.length)

def parseNumChars (cs : List Char) : Option ℚ :=
  match trimChars cs with
  | '-' :: rest => (parseUnsigned rest).map Neg.neg
  | t => parseUnsigned t

def parseKeyChars (cs : List Char) : Option String :=
  match trimChars cs with
  | '"' :: rest =>
    if rest.getLast? == some '"' then some (String.mk rest.dropLast)
    else none
  | _ => none

def parsePairChars (cs : List Char) : Option (String × ℚ) :=
  match splitOnChar ':' cs with
  | [ks, vs] => do
    let k ← parseKeyChars ks
    let q ← parseNumChars vs
    some (k, q)
  | _ => none

/-- json.loads restricted to the wire format: a brace-delimited flat object
of quoted keys and numeric values; anything else fails. -/
def parseRecordChars (cs : List Char) : Option (List (String × ℚ)) :=
  match cs with
  | [] => none
  | c :: rest =>
    if c == openBraceChar && rest.getLast? == some closeBraceChar then
      (splitOnChar ',' rest.dropLast).mapM parsePairChars
    else none

/-- The field reads read_imu_data performs on the parsed dict: all thirteen
numeric fields are required (a missing one raises KeyError, caught by the
caller's handler); the sample timestamp is datetime.now(), passed as now. -/
def buildIMU (fields : List (String × ℚ)) (now : String) : Option IMUData := do
  let ax ← fields.lookup "ax"
  let ay ← fields.lookup "ay"
  let az ← fields.lookup "az"
  let gx ← fields.lookup "gx"
  let gy ← fields.lookup "gy"
  let gz ← fields.lookup "gz"
  let mx ← fields.lookup "mx"
  let my ← fields.lookup "my"
  let mz ← fields.lookup "mz"
  let qw ← fields.lookup "qw"
  let qx ← fields.lookup "qx"
  let qy ← fields.lookup "qy"
  let qz ← fields.lookup "qz"
  some { ax, ay, az, gx, gy, gz, mx, my, mz, qw, qx, qy, qz,
         timestamp := now }

/-- The field reads _process_c_collected_data performs: the nine sensor
fields are required, the quaternion components use dict.get with identity
defaults 1, 0, 0, 0. -/
def buildIMUDefaults (fields : List (String × ℚ)) (now : String) :
    Option IMUData := do
  let ax ← fields.lookup "ax"
  let ay ← fields.lookup "ay"
  let az ← fields.lookup "az"
  let gx ← fields.lookup "gx"
  let gy ← fields.lookup "gy"
  let gz ← fields.lookup "gz"
  let mx ← fields.lookup "mx"
  let my ← fields.lookup "my"
  let mz ← fields.lookup "mz"
  some { ax, ay, az, gx, gy, gz, mx, my, mz,
         qw := (fields.lookup "qw").getD 1,
         qx := (fields.lookup "qx").getD 0,
         qy := (fields.lookup "qy").getD 0,
         qz := (fields.lookup "qz").getD 0,
         timestamp := now }

/-- SerialManager.read_imu_data over one raw line. The undecodable-bytes
case reproduces the source's control flow: .decode('utf-8') raises
UnicodeDecodeError, a subclass of ValueError, so the except (ValueError,
KeyError, json.JSONDecodeError) handler runs; that handler's first
statement reads the local variable named line, which was never assigned
because the assignment's right-hand side raised, so an UnboundLocalError
escapes the function instead of the None return. Every other failure path
returns None: an empty line, a line without both envelope markers (silently,
the fast-path filter), a marker-delimited line that fails to parse, and a
parsed record missing a required field. -/
def read_imu_data (raw : RawLine) (now : String) : PyResult (Option IMUData) :=
  match raw with
  | .undecodable => .raised "UnboundLocalError"
  | .decoded s =>
    let line := trimChars s.data
    if line.isEmpty then .ok none
    else if !(line.head? == some openBraceChar
        && line.getLast? == some closeBraceChar) then .ok none
    else
      match parseRecordChars line with
      | none => .ok none
      | some fields =>
        match buildIMU fields now with
        | none => .ok none
        | some d => .ok (some d)

/-- GolfIMUBackend._process_c_collected_data, per line: only stripped lines
starting with the record-open marker are considered; parse failures and
missing required fields are skipped; quaternions default to identity. -/
def process_c_line (s : String) (now : String) : Option IMUData :=
  let l := trimChars s.data
  if l.head? == some openBraceChar then
    match parseRecordChars l with
    | none => none
    | some fields => buildIMUDefaults fields now
  else none

/-- A record line holding exactly the nine required sensor fields and no
quaternion fields. -/
def nineFieldLine : String :=
  "\x7b\"ax\":1,\"ay\":2,\"az\":3,\"gx\":4,\"gy\":5,\"gz\":6,\"mx\":7,\"my\":8,\"mz\":9\x7d"

/-- C3 counterexample: on a record line holding the nine required sensor
fields but no quaternion fields, the serial-line decoder read_imu_data
yields no sample at all (the KeyError on the required quaternion read is
caught and the line skipped), contradicting the claim that decoding yields
a sample with the identity quaternion; the very same line decoded by the
batch decoder does yield the identity-quaternion sample, showing the line
is a well-formed nine-field record. -/
theorem nine_field_line_no_sample :
    read_imu_data (RawLine.decoded nineFieldLine) "now" = PyResult.ok none
    ∧ process_c_line nineFieldLine "now"
        = some { ax := 1, ay := 2, az := 3, gx := 4, gy := 5, gz := 6,
                 mx := 7, my := 8, mz := 9, qw := 1, qx := 0, qy := 0,
                 qz := 0, timestamp := "now" } := by
  constructor
  · decide
  · decide

/-- C3 (amended): the two decoders disagree on a record with the nine
required sensor fields and no quaternion fields: the batch decoder
(_process_c_collected_data) yields the sample with the identity quaternion
qw=1, qx=qy=qz=0, while the serial decoder (read_imu_data) treats all four
quaternion fields as required and yields no sample. -/
theorem quaternion_defaults_amended (fields : List (String × ℚ))
    (now : String) (ax ay az gx gy gz mx my mz : ℚ)
    (hax : fields.lookup "ax" = some ax)
    (hay : fields.lookup "ay" = some ay)
    (haz : fields.lookup "az" = some az)
    (hgx : fields.lookup "gx" = some gx)
    (hgy : fields.lookup "gy" = some gy)
    (hgz : fields.lookup "gz" = some gz)
    (hmx : fields.lookup "mx" = some mx)
    (hmy : fields.lookup "my" = some my)
    (hmz : fields.lookup "mz" = some mz)
    (hqw : fields.lookup "qw" = none)
    (hqx : fields.lookup "qx" = none)
    (hqy : fields.lookup "qy" = none)
    (hqz : fields.lookup "qz" = none) :
    buildIMU fields now = none
    ∧ buildIMUDefaults fields now
        = some { ax, ay, az, gx, gy, gz, mx, my, mz,
                 qw := 1, qx := 0, qy := 0, qz := 0, timestamp := now } := by
  constructor
  · simp [buildIMU, hax, hay, haz, hgx, hgy, hgz, hmx, hmy, hmz, hqw]
  · simp [buildIMUDefaults, hax, hay, haz, hgx, hgy, hgz, hmx, hmy, hmz,
      hqw, hqx, hqy, hqz]

/-- Witness for C3's amended theorem at a concrete nine-field record. -/
theorem quaternion_defaults_amended_witness :
    buildIMU [("ax", 1), ("ay", 2), ("az", 3), ("gx", 4), ("gy", 5),
      ("gz", 6), ("mx", 7), ("my", 8), ("mz", 9)] "n" = none :=
  (quaternion_defaults_amended
    [("ax", 1), ("ay", 2), ("az", 3), ("gx", 4), ("gy", 5), ("gz", 6),
      ("mx", 7), ("my", 8), ("mz", 9)] "n" 1 2 3 4 5 6 7 8 9
    rfl rfl rfl rfl rfl rfl rfl rfl rfl rfl rfl rfl rfl).1

/-- C8 (code bug): the decoder is exception-free on every decoded text line
— a banner line without the envelope markers is silently ignored and a
marker-delimited line that fails to parse is skipped, both returning no
sample — but a line whose bytes fail UTF-8 decoding raises: the
UnicodeDecodeError lands in the except handler whose first statement reads
the never-assigned local variable line, so an UnboundLocalError escapes to
the caller. -/
theorem read_imu_data_raises_on_undecodable :
    read_imu_data RawLine.undecodable "now"
        = PyResult.raised "UnboundLocalError"
    ∧ read_imu_data (RawLine.decoded "Banner: GolfIMU ready") "now"
        = PyResult.ok none
    ∧ read_imu_data (RawLine.decoded "\x7bnot json\x7d") "now"
        = PyResult.ok none := by
  refine ⟨rfl, by decide, by decide⟩
